import Mathlib

/-!
Verification development for the DaiMaouLiarGame server (Python).

The definitions below are a shallow embedding of the room state machine,
the socket handlers and the SQLite persistence layer of the repository:

* `src/game/game_manager.py`   — projection, scoring, transitions, timers
* `src/handlers/game_handler.py` — start-game, liar-vote, voting-timer handlers
* `src/handlers/connection_handler.py` — disconnect handling
* `src/database/db_manager.py` — room row round-trip

Python dicts are embedded as association lists (insertion ordered, unique
keys, like Python 3.7+ dicts); a key that may be absent from the room dict
is an `Option` field (`none` = key absent).  Timestamps are integers
(epoch milliseconds, as produced by `int(time.time() * 1000)`).
Randomness (`random.random`, `random.sample`, question drawing) is made
explicit as parameters of the embedded functions.
-/

set_option maxHeartbeats 1000000

/-- A player record, as stored in `room["players"]`.
Mirrors the dict created in `room_handler.handle_create_room` /
`handle_join_room` and mutated by `connection_handler`. -/
structure Player where
  id : String
  name : String
  avatar : String := ""
  socket_id : Option String := none
  disconnected : Bool := false
  disconnect_time : Option Int := none
  had_submitted : Option Bool := none
  was_ready : Option Bool := none
deriving DecidableEq

/-- The client-supplied `settings` dict; every key may be absent, consumers
use `.get(key, default)`. -/
structure GameSettings where
  totalRounds : Option Nat := none
  playerCount : Option Nat := none
  discussTime : Option Nat := none
  answerTime : Option Nat := none
  gameMode : Option String := none
deriving DecidableEq

/-- The `room["results"]` payload built by `handle_round_transition`. -/
structure ResultsPayload where
  finalRound : Option Nat := none
  gameComplete : Option Bool := none
  playerScores : Option (List (String × Int)) := none
  reason : Option String := none
deriving DecidableEq

/-- A room snapshot: the in-memory dict passed between the handlers and the
store.  Fields that may be missing from the dict are `Option`s
(`none` = key absent; in particular `get_room` never returns the keys
`impostor_ids`, `player_scores`, `language` or any of the phase *end*
timestamps, see `roomOfRow`). -/
structure Room where
  players : List Player
  host_id : String
  phase : String
  language : Option String := none
  imposter_id : Option String := none
  impostor_ids : Option (List String) := none
  roles : List (String × String) := []
  questions : List (String × String) := []
  answers : List (String × String) := []
  votes : List (String × String) := []
  results : Option ResultsPayload := none
  lobby_events : List String := []
  main_question : Option String := none
  ready_to_vote : List String := []
  settings : Option GameSettings := none
  questionPhaseStartTimestamp : Option Int := none
  questionPhaseEndTimestamp : Option Int := none
  votingPhaseStartTimestamp : Option Int := none
  votingPhaseEndTimestamp : Option Int := none
  voteSelectionStartTimestamp : Option Int := none
  voteSelectionEndTimestamp : Option Int := none
  liarVotes : List (String × List String) := []
  used_question_indexes : List Nat := []
  current_round : Nat := 1
  total_rounds : Nat := 5
  player_scores : Option (List (String × Int)) := none
deriving DecidableEq

/-- `utils/helpers.py::get_active_players`: the non-disconnected players. -/
def getActivePlayers (players : List Player) : List Player :=
  players.filter (fun p => !p.disconnected)

/-- `room.get("settings", {}).get("gameMode", "normal")`. -/
def gameModeOf (room : Room) : String :=
  match room.settings with
  | none => "normal"
  | some s => s.gameMode.getD "normal"

/-- `room.get("settings", {}).get("answerTime", 60)`. -/
def answerTimeOf (room : Room) : Nat :=
  match room.settings with
  | none => 60
  | some s => s.answerTime.getD 60

/-- `room.get("settings", {}).get("discussTime", 180)`. -/
def discussTimeOf (room : Room) : Nat :=
  match room.settings with
  | none => 180
  | some s => s.discussTime.getD 180

/-- `dict.get(k, [])` on the liar-vote tally. -/
def lookupVotes (lv : List (String × List String)) (k : String) : List String :=
  ((lv.find? (fun e => e.1 = k)).map (fun e => e.2)).getD []

/-! ## Persistence layer (`src/database/db_manager.py`)

The `rooms` table has exactly the columns of the `CREATE TABLE` statement in
`init_database`; JSON (de)serialisation of the nested structures is the
identity on the values involved, so the columns carry the structured values
directly.  Note which room keys have **no** column: `impostor_ids`,
`player_scores`, `language`, `questionPhaseEndTimestamp`,
`votingPhaseEndTimestamp`, `voteSelectionEndTimestamp`. -/

/-- One row of the `rooms` table (sans the `room_id` primary key). -/
structure RoomRow where
  players : List Player
  host_id : String
  phase : String
  imposter_id : Option String
  roles : List (String × String)
  questions : List (String × String)
  answers : List (String × String)
  votes : List (String × String)
  results : Option ResultsPayload
  lobby_events : List String
  main_question : Option String
  ready_to_vote : List String
  settings : Option GameSettings
  question_phase_start_timestamp : Option Int
  voting_phase_start_timestamp : Option Int
  vote_selection_start_timestamp : Option Int
  liar_votes : List (String × List String)
  used_question_indexes : List Nat
  current_round : Nat
  total_rounds : Nat
deriving DecidableEq

/-- `DatabaseManager.update_room` (and `create_room`): the tuple of column
values written for a room snapshot.  Every key of the snapshot that has no
matching column is silently dropped. -/
def rowOfRoom (room : Room) : RoomRow where
  players := room.players
  host_id := room.host_id
  phase := room.phase
  imposter_id := room.imposter_id
  roles := room.roles
  questions := room.questions
  answers := room.answers
  votes := room.votes
  results := room.results
  lobby_events := room.lobby_events
  main_question := room.main_question
  ready_to_vote := room.ready_to_vote
  settings := room.settings
  question_phase_start_timestamp := room.questionPhaseStartTimestamp
  voting_phase_start_timestamp := room.votingPhaseStartTimestamp
  vote_selection_start_timestamp := room.voteSelectionStartTimestamp
  liar_votes := room.liarVotes
  used_question_indexes := room.used_question_indexes
  current_round := room.current_round
  total_rounds := room.total_rounds

/-- `DatabaseManager.get_room`: the dict rebuilt from a row.  Only the keys
listed in the function body are present; in particular the returned dict
never contains `impostor_ids`, `player_scores`, `language` or the phase end
timestamps. -/
def roomOfRow (row : RoomRow) : Room where
  players := row.players
  host_id := row.host_id
  phase := row.phase
  language := none
  imposter_id := row.imposter_id
  impostor_ids := none
  roles := row.roles
  questions := row.questions
  answers := row.answers
  votes := row.votes
  results := row.results
  lobby_events := row.lobby_events
  main_question := row.main_question
  ready_to_vote := row.ready_to_vote
  settings := row.settings
  questionPhaseStartTimestamp := row.question_phase_start_timestamp
  questionPhaseEndTimestamp := none
  votingPhaseStartTimestamp := row.voting_phase_start_timestamp
  votingPhaseEndTimestamp := none
  voteSelectionStartTimestamp := row.vote_selection_start_timestamp
  voteSelectionEndTimestamp := none
  liarVotes := row.liar_votes
  used_question_indexes := row.used_question_indexes
  current_round := row.current_round
  total_rounds := row.total_rounds
  player_scores := none

/-- The room store: `room_id → row`, as an association list. -/
def Db := List (String × RoomRow)

/-- `DatabaseManager.get_room` at the store level. -/
def getRoomDb (db : Db) (roomId : String) : Option Room :=
  ((List.find? (fun e => e.1 = roomId) db).map (fun e => roomOfRow e.2))

/-- `DatabaseManager.update_room` at the store level (UPDATE: rows of other
room ids are untouched; a missing id updates nothing). -/
def updateRoomDb (db : Db) (roomId : String) (room : Room) : Db :=
  List.map (fun e => if e.1 = roomId then (e.1, rowOfRoom room) else e) db

/-- `DatabaseManager.room_exists`. -/
def roomExistsDb (db : Db) (roomId : String) : Bool :=
  (List.find? (fun e => e.1 = roomId) db).isSome

/-! ## Projection (`GameManager.get_room_state`) -/

/-- One element of the public `answers` list of the projection. -/
structure AnswerEntry where
  playerId : String
  name : String
  answer : String
deriving DecidableEq

/-- The state dict emitted to clients.  An `Option`-wrapped field models a
key that is only present for certain phases (`none` = key absent); the
inner type is the stored value (itself an `Option` when the dict value may
be `None`, as for `imposterId`). -/
structure StateProj where
  roomId : String
  phase : String
  players : List Player
  hostId : String
  lobbyEvents : List String
  settings : Option GameSettings
  currentRound : Nat
  totalRounds : Nat
  language : String
  questionPhaseStartTimestamp : Option (Option Int) := none
  questionPhaseEndTimestamp : Option (Option Int) := none
  submittedCount : Option Nat := none
  answers : Option (List AnswerEntry) := none
  votingPhaseStartTimestamp : Option (Option Int) := none
  votingPhaseEndTimestamp : Option (Option Int) := none
  mainQuestion : Option (Option String) := none
  readyToVote : Option (List String) := none
  voteSelectionStartTimestamp : Option (Option Int) := none
  voteSelectionEndTimestamp : Option (Option Int) := none
  liarVotes : Option (List (String × List String)) := none
  impostorIds : Option (List String) := none
  imposterId : Option (Option String) := none
  results : Option (Option ResultsPayload) := none
  questions : Option (List (String × String)) := none
deriving DecidableEq

/-- `GameManager.get_room_state` (room already fetched; the function guards
`if not room: return None`). -/
def get_room_state (roomOpt : Option Room) (roomId : String) : Option StateProj :=
  match roomOpt with
  | none => none
  | some room =>
    let active := getActivePlayers room.players
    let base : StateProj :=
      { roomId := roomId
        phase := room.phase
        players := active
        hostId := room.host_id
        lobbyEvents := room.lobby_events
        settings := room.settings
        currentRound := room.current_round
        totalRounds := room.total_rounds
        language := room.language.getD "en" }
    if room.phase = "question" then
      let activeIds := active.map (fun p => p.id)
      let activeAnswers := room.answers.filter (fun e => activeIds.contains e.1)
      some { base with
        questionPhaseStartTimestamp := some room.questionPhaseStartTimestamp
        questionPhaseEndTimestamp := some room.questionPhaseEndTimestamp
        submittedCount := some activeAnswers.length
        answers := some (activeAnswers.filterMap (fun e =>
          match room.players.find? (fun p => p.id = e.1) with
          | some p => if p.disconnected then none
                      else some { playerId := e.1, name := p.name, answer := e.2 }
          | none => none)) }
    else if room.phase = "voting" then
      some { base with
        questionPhaseStartTimestamp := some room.questionPhaseStartTimestamp
        votingPhaseStartTimestamp := some room.votingPhaseStartTimestamp
        votingPhaseEndTimestamp := some room.votingPhaseEndTimestamp
        answers := some (room.answers.filterMap (fun e =>
          (room.players.find? (fun p => p.id = e.1)).map (fun p =>
            { playerId := e.1, name := p.name, answer := e.2 })))
        mainQuestion := some room.main_question
        readyToVote := some room.ready_to_vote }
    else if room.phase = "vote_selection" then
      some { base with
        questionPhaseStartTimestamp := some room.questionPhaseStartTimestamp
        votingPhaseStartTimestamp := some room.votingPhaseStartTimestamp
        voteSelectionStartTimestamp := some room.voteSelectionStartTimestamp
        voteSelectionEndTimestamp := some room.voteSelectionEndTimestamp
        answers := some (room.answers.filterMap (fun e =>
          (room.players.find? (fun p => p.id = e.1)).map (fun p =>
            { playerId := e.1, name := p.name, answer := e.2 })))
        mainQuestion := some room.main_question
        readyToVote := some room.ready_to_vote
        liarVotes := some room.liarVotes
        impostorIds := some (room.impostor_ids.getD
          (match room.imposter_id with | some i => [i] | none => []))
        imposterId := some room.imposter_id }
    else if room.phase = "results" then
      some { base with
        results := some room.results
        questions := some room.questions }
    else
      some base

/-! ## Scoring (`GameManager.calculate_round_scores`) -/

/-- A Python dict with `Int` values, embedded as its key list (insertion
order) together with its value map.  `calculate_round_scores` creates the
dict with exactly the players as keys and afterwards only does
`scores[k] += v` on existing keys, so the key list never changes. -/
structure IntDict where
  keys : List String
  val : String → Int

/-- `scores[k] += v` (the key is present whenever the source performs it). -/
def IntDict.add (d : IntDict) (k : String) (v : Int) : IntDict :=
  ⟨d.keys, fun q => if q = k then d.val q + v else d.val q⟩

/-- `k in scores`. -/
def IntDict.hasKey (d : IntDict) (k : String) : Bool :=
  d.keys.contains k

/-- Zero-imposter case, wrong-accusation count of a voter: the number of
tally entries whose voter list contains `pid` with a target other than
`pid` itself. -/
def wrongVoteCount (lv : List (String × List String)) (pid : String) : Nat :=
  (lv.filter (fun e => e.2.contains pid && e.1 != pid)).length

/-- Mayhem voter phase: number of distinct non-self targets of `pid` that
are imposters. -/
def correctVoteCountM (lv : List (String × List String)) (imp : List String)
    (pid : String) : Nat :=
  (lv.filter (fun e => e.2.contains pid && e.1 != pid && imp.contains e.1)).length

/-- Mayhem voter phase: number of distinct non-self targets of `pid` that
are not imposters. -/
def wrongVoteCountM (lv : List (String × List String)) (imp : List String)
    (pid : String) : Nat :=
  (lv.filter (fun e => e.2.contains pid && e.1 != pid && !imp.contains e.1)).length

/-- Normal-mode voter phase: `pid` cast at least one (non-self) vote against
some imposter (the `voted_correctly` flag with its early `break`). -/
def votedCorrectly (lv : List (String × List String)) (imp : List String)
    (pid : String) : Bool :=
  imp.any (fun iid => (lookupVotes lv iid).contains pid && pid != iid)

/-- Loop body of the zero-imposter special case of
`calculate_round_scores`: a player absent from the set of vote *casters*
gains +2, otherwise loses one point per non-self vote cast. -/
def zeroImposterStep (room : Room) (sc : IntDict) (pid : String) : IntDict :=
  let voters := (room.liarVotes.map (fun e => e.2)).flatten
  if !voters.contains pid then sc.add pid 2
  else sc.add pid (-(wrongVoteCount room.liarVotes pid : Int))

/-- `valid_votes` length for one imposter: votes received excluding the
self-vote. -/
def validVoteCount (room : Room) (iid : String) : Nat :=
  ((lookupVotes room.liarVotes iid).filter (fun v => v != iid)).length

/-- Loop body of the per-imposter bonus pass of `calculate_round_scores`
(the `if impostor_id not in scores: continue` guard and the 0-votes /
≤50%-votes bonuses; the float percentage is an exact rational). -/
def imposterBonusStep (room : Room) (sc : IntDict) (iid : String) : IntDict :=
  if sc.hasKey iid then
    let votes_received := validVoteCount room iid
    let total_players := ((getActivePlayers room.players).map (fun p => p.id)).length
    let vote_percentage : ℚ :=
      if 0 < total_players then (votes_received : ℚ) / total_players * 100 else 0
    if votes_received = 0 then sc.add iid 2
    else if vote_percentage ≤ 50 then sc.add iid 1
    else sc
  else sc

/-- Loop body of the mayhem-mode voter pass of `calculate_round_scores`:
active non-imposters gain `correct - wrong`. -/
def mayhemVoterStep (room : Room) (sc : IntDict) (pid : String) : IntDict :=
  if (room.impostor_ids.getD []).contains pid then sc
  else sc.add pid
    ((correctVoteCountM room.liarVotes (room.impostor_ids.getD []) pid : Int)
      - (wrongVoteCountM room.liarVotes (room.impostor_ids.getD []) pid : Int))

/-- Loop body of the normal-mode voter pass of `calculate_round_scores`:
active non-imposters gain a flat +1 for voting correctly at least once. -/
def normalVoterStep (room : Room) (sc : IntDict) (pid : String) : IntDict :=
  if (room.impostor_ids.getD []).contains pid then sc
  else if votedCorrectly room.liarVotes (room.impostor_ids.getD []) pid then sc.add pid 1
  else sc

/-- `GameManager.calculate_round_scores`.  Follows the source line by line:
initial zero scores for *all* players, a zero-imposter special case keyed on
the set of players who *cast* votes, otherwise a bonus pass over
`impostor_ids` and a voter pass over active non-imposters, split on the
game mode; the named step functions above are the loop bodies. -/
def calculate_round_scores (room : Room) : IntDict :=
  let impostor_ids := room.impostor_ids.getD []
  if room.players = [] then ⟨[], fun _ => 0⟩
  else
    let active_player_ids := (getActivePlayers room.players).map (fun p => p.id)
    let scores : IntDict := ⟨room.players.map (fun p => p.id), fun _ => 0⟩
    if impostor_ids = [] then
      active_player_ids.foldl (zeroImposterStep room) scores
    else
      let sc1 := impostor_ids.foldl (imposterBonusStep room) scores
      if gameModeOf room = "mayhem" then
        active_player_ids.foldl (mayhemVoterStep room) sc1
      else
        active_player_ids.foldl (normalVoterStep room) sc1

/-! ## Imposter sizing and phase transitions (`GameManager`) -/

/-- `GameManager.get_mayhem_impostor_count`.  `rand` stands for the value of
`random.random() * 100`, a number in `[0, 100)`. -/
def get_mayhem_impostor_count (player_count : Nat) (rand : ℚ) : Nat :=
  if player_count = 4 then
    if rand < 10 then 0
    else if rand < 30 then 3
    else if rand < 90 then 2
    else 1
  else if player_count ≤ 6 then
    if rand < 5 then 0
    else if rand < 10 then player_count - 1
    else if rand < 25 then player_count - 2
    else if rand < 70 then player_count / 2
    else min 3 (player_count - 2)
  else
    if rand < 3 then 0
    else if rand < 8 then player_count - 1
    else if rand < 18 then player_count - 2
    else if rand < 40 then player_count / 2
    else if rand < 70 then (player_count * 2) / 3
    else player_count / 3

/-- `GameManager.transition_to_vote_selection` (the state mutation under the
lock; the scheduling and the emit afterwards do not touch the store).
`now` is `int(time.time() * 1000)`. -/
def transition_to_vote_selection (db : Db) (roomId : String) (now : Int) : Db :=
  match getRoomDb db roomId with
  | none => db
  | some room =>
    if room.phase != "voting" then db
    else
      updateRoomDb db roomId { room with
        phase := "vote_selection"
        voteSelectionStartTimestamp := some now
        voteSelectionEndTimestamp := some (now + 30000)
        lobby_events := room.lobby_events ++ ["Time to vote for the imposter!"]
        liarVotes := []
        ready_to_vote := [] }

/-- `room["player_scores"][pid] += points` with insertion of a fresh key
when absent (`handle_round_transition`, scoring accumulation loop). -/
def addOrInsertScore (ps : List (String × Int)) (pid : String) (pts : Int) :
    List (String × Int) :=
  if ps.any (fun e => e.1 = pid) then
    ps.map (fun e => if e.1 = pid then (e.1, e.2 + pts) else e)
  else
    ps ++ [(pid, pts)]

/-- `m[k] = v` on a string-valued dict: overwrite when the key exists,
append otherwise (used for the per-player `roles` / `questions` updates,
which assign to every current player but keep stale keys). -/
def assocSet (m : List (String × String)) (k v : String) : List (String × String) :=
  if m.any (fun e => e.1 = k) then
    m.map (fun e => if e.1 = k then (e.1, v) else e)
  else
    m ++ [(k, v)]

/-- `GameManager.handle_round_transition` (state effects only).  The
question draw (`get_question_pair` → `(main, imposter, index)`) and the
imposter sample (`random.sample(active_players, impostor_count)`) are
explicit parameters `qp` and `imps`; `rand` feeds the mayhem draw.
`now` is `int(time.time() * 1000)`. -/
def handle_round_transition_core (db : Db) (roomId : String) (now : Int)
    (qp : String × String × Nat) (imps : List Player) (rand : ℚ) : Db :=
  match getRoomDb db roomId with
  | none => db
  | some room =>
    if room.phase = "question" then db
    else if room.phase != "vote_selection" then db
    else
      let current_round := room.current_round
      let total_rounds := room.total_rounds
      let round_scores := calculate_round_scores room
      let base_scores := room.player_scores.getD
        (room.players.map (fun p => (p.id, (0 : Int))))
      let player_scores := round_scores.keys.foldl
        (fun ps pid => addOrInsertScore ps pid (round_scores.val pid)) base_scores
      let room := { room with player_scores := some player_scores }
      if total_rounds ≤ current_round then
        updateRoomDb db roomId { room with
          phase := "results"
          results := some { finalRound := some current_round
                            gameComplete := some true
                            playerScores := some player_scores } }
      else
        let next_round := current_round + 1
        let room := { room with current_round := next_round }
        let active_players := getActivePlayers room.players
        if active_players.length < 2 then
          updateRoomDb db roomId { room with
            phase := "results"
            results := some { finalRound := some current_round
                              gameComplete := some true
                              reason := some "Not enough players" } }
        else
          let room := { room with
            main_question := some qp.1
            used_question_indexes := room.used_question_indexes ++ [qp.2.2] }
          let impostor_count :=
            if gameModeOf room = "mayhem" then
              get_mayhem_impostor_count active_players.length rand
            else 1
          let _ := impostor_count
          let impostor_ids := imps.map (fun p => p.id)
          let room := { room with
            impostor_ids := some impostor_ids
            imposter_id := impostor_ids.head? }
          let room := { room with
            roles := room.players.foldl (fun m (p : Player) =>
              assocSet m p.id (if impostor_ids.contains p.id then "imposter" else "normal"))
              room.roles
            questions := room.players.foldl (fun m (p : Player) =>
              assocSet m p.id (if impostor_ids.contains p.id then qp.2.1 else qp.1))
              room.questions }
          updateRoomDb db roomId { room with
            answers := []
            votes := []
            liarVotes := []
            ready_to_vote := []
            phase := "question"
            questionPhaseStartTimestamp := some (now - 2000)
            questionPhaseEndTimestamp := some (now + (answerTimeOf room : Int) * 1000)
            lobby_events := room.lobby_events ++
              ["Round " ++ toString next_round ++ " has started!"] }

/-- The body of the timer thread armed by
`GameManager.schedule_phase_transition`: after sleeping it re-reads the
room under the lock, checks `not room or room['phase'] != phase_name`, and
otherwise performs the transition for `next_phase` (chaining into
`transition_to_vote_selection` / `handle_round_transition`).  The params
`qp`, `imps`, `rand` feed the round-transition branch. -/
def phase_timer_callback (db : Db) (roomId phaseName nextPhase : String)
    (now : Int) (qp : String × String × Nat) (imps : List Player) (rand : ℚ) : Db :=
  match getRoomDb db roomId with
  | none => db
  | some room =>
    if room.phase != phaseName then db
    else if nextPhase = "voting" then
      updateRoomDb db roomId { room with
        phase := "voting"
        votingPhaseStartTimestamp := some now
        votingPhaseEndTimestamp := some (now + (discussTimeOf room : Int) * 1000)
        lobby_events := room.lobby_events ++ ["Times up! Moving to voting."]
        ready_to_vote := [] }
    else if nextPhase = "vote_selection" then
      transition_to_vote_selection db roomId now
    else if nextPhase = "results" then
      handle_round_transition_core db roomId now qp imps rand
    else db

/-! ## Game handlers (`src/handlers/game_handler.py`) -/

/-- Result of `GameHandler.handle_start_game`: the early returns emit an
error and never persist, only the success path writes the room. -/
inductive StartGameResult
  | noRoom
  | error (msg : String)
  | started (room : Room)
deriving DecidableEq

/-- `true` exactly on the success outcome of a start-game request. -/
def StartGameResult.isStarted : StartGameResult → Bool
  | .started _ => true
  | _ => false

/-- The room written by a successful start-game request, if any. -/
def StartGameResult.startedRoom : StartGameResult → Option Room
  | .started r => some r
  | _ => none

/-- `GameHandler.handle_start_game` on a fetched room.  `qp` is the drawn
`(main, imposter, index)` triple, `imps` the result of
`random.sample(active_players, impostor_count)`, `rand` the mayhem draw and
`now` the value of `int(time.time() * 1000)`.  Note that the player-count
guard compares the length of the *full* player list, and that there is no
check on the current phase. -/
def handle_start_game (roomOpt : Option Room) (playerId : String)
    (settings : Option GameSettings) (qp : String × String × Nat)
    (imps : List Player) (rand : ℚ) (now : Int) : StartGameResult :=
  match roomOpt with
  | none => .noRoom
  | some room =>
    let room := { room with settings := settings }
    if room.host_id != playerId then
      .error "Only the host can start the game."
    else if room.players.length < 2 then
      .error "You need at least 2 players to start."
    else
      let active_players := getActivePlayers room.players
      let room := { room with
        main_question := some qp.1
        used_question_indexes := room.used_question_indexes ++ [qp.2.2] }
      let total_rounds := match settings with
        | some s => s.totalRounds.getD 5
        | none => 5
      let room := { room with current_round := 1, total_rounds := total_rounds }
      let impostor_count :=
        if gameModeOf room = "mayhem" then
          get_mayhem_impostor_count active_players.length rand
        else 1
      let _ := impostor_count
      let impostor_ids := imps.map (fun p => p.id)
      let room := { room with
        impostor_ids := some impostor_ids
        imposter_id := impostor_ids.head? }
      let room := { room with
        roles := room.players.foldl (fun m (p : Player) =>
          assocSet m p.id (if impostor_ids.contains p.id then "imposter" else "normal"))
          room.roles
        questions := room.players.foldl (fun m (p : Player) =>
          assocSet m p.id (if impostor_ids.contains p.id then qp.2.1 else qp.1))
          room.questions }
      let room := { room with answers := [], votes := [], results := none }
      .started { room with
        phase := "question"
        questionPhaseStartTimestamp := some now
        questionPhaseEndTimestamp := some (now + (answerTimeOf room : Int) * 1000)
        lobby_events := room.lobby_events ++ ["The game has started!"] }

/-- `GameHandler.handle_voting_timer_expired`: whenever the room exists it
unconditionally forces the phase to `vote_selection` — there is no check
that the current phase is `voting`.  (`now` stands for `time.time()`, a
seconds value in the source.) -/
def handle_voting_timer_expired (roomOpt : Option Room) (now : Int) : Option Room :=
  match roomOpt with
  | none => none
  | some room =>
    some { room with
      phase := "vote_selection"
      voteSelectionStartTimestamp := some now }

/-- `room['liarVotes'][target_id].append(voter_id)` on the first (unique)
entry with that key. -/
def appendVote : List (String × List String) → String → String →
    List (String × List String)
  | [], _, _ => []
  | e :: rest, t, v =>
    if e.1 = t then (e.1, e.2 ++ [v]) :: rest else e :: appendVote rest t v

/-- `GameHandler.handle_liar_vote` on a fetched room (missing-argument and
missing-room guards happen before).  In normal mode the voter is first
removed (`list.remove`, first occurrence) from every target's voter list;
in mayhem mode previous votes stay.  Then the target's entry is created if
absent and the voter appended. -/
def handle_liar_vote (room : Room) (voterId targetId : String) : Room :=
  if room.phase != "vote_selection" then room
  else
    let lv := room.liarVotes
    let lv := if gameModeOf room != "mayhem" then
        lv.map (fun e => (e.1, e.2.erase voterId))
      else lv
    let lv := if lv.any (fun e => e.1 = targetId) then lv else lv ++ [(targetId, [])]
    let lv := appendVote lv targetId voterId
    let voter_name := ((room.players.find? (fun p => p.id = voterId)).map
      (fun p => p.name)).getD "Someone"
    let target_name := ((room.players.find? (fun p => p.id = targetId)).map
      (fun p => p.name)).getD "Unknown"
    { room with
      liarVotes := lv
      lobby_events := room.lobby_events ++ [voter_name ++ " voted for " ++ target_name ++ "."] }

/-- Total number of occurrences of voter `v` across all voter lists of the
liar-vote tally. -/
def voterOccurrences (lv : List (String × List String)) (v : String) : Nat :=
  (lv.map (fun e => e.2.count v)).sum

/-! ## Disconnect handling (`src/handlers/connection_handler.py`) -/

/-- Outcome of `ConnectionHandler.handle_disconnect` for one room:
either the disconnecting socket is not in this room, or the room gets
deleted, or the updated snapshot is persisted. -/
inductive DisconnectOutcome
  | notFound
  | roomDeleted
  | roomUpdated (room : Room)
deriving DecidableEq

/-- `ConnectionHandler.check_phase_transition_after_disconnect`.  Note the
question-phase condition counts *all* stored answers
(`len(room.get("answers", {}))`) against the active-player count.
`now` stands for `time.time()` (seconds); the stamped timestamp is
`int(time.time() * 1000)`. -/
def check_phase_transition_after_disconnect (room : Room) (active : List Player)
    (now : Int) : Room :=
  if room.phase = "question" then
    if room.answers.length = active.length ∧ 0 < active.length then
      { room with
        phase := "voting"
        votingPhaseStartTimestamp := some (now * 1000)
        lobby_events := room.lobby_events ++ ["All answers are in! Time to vote."]
        ready_to_vote := [] }
    else room
  else if room.phase = "voting" then
    if room.ready_to_vote.length = active.length ∧ 0 < active.length then
      { room with
        phase := "vote_selection"
        voteSelectionStartTimestamp := some (now * 1000)
        lobby_events := room.lobby_events ++ ["Time to vote for the imposter!"]
        liarVotes := [] }
    else room
  else room

/-- The room written back by a disconnect that updates (rather than
deletes) the room, if any. -/
def DisconnectOutcome.updatedRoom : DisconnectOutcome → Option Room
  | .roomUpdated r => some r
  | _ => none

/-- The in-place mutation of the disconnecting player record
(`handle_disconnect` lines 61-67): mark disconnected, stamp the disconnect
time, drop the socket handle and snapshot the pre-disconnect
submission/readiness state. -/
def markDisconnected (room : Room) (pl : Player) (now : Int) : Player :=
  { pl with
    disconnected := true
    disconnect_time := some now
    socket_id := none
    had_submitted := some (room.answers.any (fun e => e.1 = pl.id))
    was_ready := some (room.ready_to_vote.contains pl.id) }

/-- `ConnectionHandler.handle_disconnect`, restricted to the room in which
the disconnecting socket is found (the source scans all rooms and handles
the first room containing the socket id).  `now` is `time.time()` in
seconds.  Waiting-phase disconnects remove the player outright; in-game
disconnects mark the player, strip their question-phase answer, vote,
ready flag and liar votes, purge players whose 30-second grace window has
elapsed, delete the room when at most one active player remains, reassign
the host if needed, and finally re-check the phase completion condition. -/
def handle_disconnect_room (room : Room) (sid : String) (now : Int) :
    DisconnectOutcome :=
  match room.players.find? (fun p => p.socket_id = some sid) with
  | none => .notFound
  | some pl =>
    if room.phase = "waiting" then
      let room := { room with
        players := room.players.filter (fun p => p.id != pl.id)
        lobby_events := room.lobby_events ++ [pl.name ++ " has left the game."] }
      if room.players = [] then .roomDeleted
      else if pl.id = room.host_id then
        match room.players with
        | [] => .roomDeleted
        | first :: _ =>
          .roomUpdated { room with
            host_id := first.id
            lobby_events := room.lobby_events ++ [first.name ++ " is the new host."] }
      else .roomUpdated room
    else
      let upd : Player := markDisconnected room pl now
      let room := { room with
        players := room.players.map (fun (p : Player) => if p.id = pl.id then upd else p)
        lobby_events := room.lobby_events ++ [pl.name ++ " has disconnected."] }
      let room := if room.phase = "question" then
          { room with answers := room.answers.filter (fun (e : String × String) => e.1 != pl.id) }
        else room
      let room := { room with
        votes := room.votes.filter (fun (e : String × String) => e.1 != pl.id)
        ready_to_vote := room.ready_to_vote.erase pl.id }
      let room := { room with
        liarVotes := (room.liarVotes.map (fun (e : String × List String) => (e.1, e.2.erase pl.id))).filter
          (fun (e : String × List String) => e.1 != pl.id) }
      let expired := room.players.filter
        (fun p => p.disconnected && 30 < now - p.disconnect_time.getD 0)
      let room := { room with
        players := room.players.filter
          (fun (p : Player) => !(p.disconnected && 30 < now - p.disconnect_time.getD 0))
        lobby_events := room.lobby_events ++
          expired.map (fun p => p.name ++ " has been removed (reconnect timeout).") }
      let active := getActivePlayers room.players
      if active.length = 1 then .roomDeleted
      else if active = [] then .roomDeleted
      else
        let room :=
          match active with
          | [] => room
          | first :: _ =>
            if pl.id = room.host_id then
              { room with
                host_id := first.id
                lobby_events := room.lobby_events ++ [first.name ++ " is the new host."] }
            else room
        .roomUpdated (check_phase_transition_after_disconnect room active now)

/-! ## Claim-side reference definitions and concrete instances -/

/-- Modelled from claim C5's wording, NOT from the source (used only to
refute the claim): in a zero-imposter round, a player who *received* no
(non-self) accusing vote gains +2, and every player is deducted 1 point per
wrong accusation they *cast* (non-self votes; with zero imposters every
non-self vote is wrong). -/
def c5ClaimScore (room : Room) (pid : String) : Int :=
  (if ((lookupVotes room.liarVotes pid).filter (fun v => v != pid)).length = 0
   then 2 else 0)
  - (wrongVoteCount room.liarVotes pid : Int)

/-- Player Alice (connected, socket `sA`). -/
def pA : Player := { id := "A", name := "Alice", socket_id := some "sA" }

/-- Player Bob (connected, socket `sB`). -/
def pB : Player := { id := "B", name := "Bob", socket_id := some "sB" }

/-- Player Cara (connected, socket `sC`). -/
def pC : Player := { id := "C", name := "Cara", socket_id := some "sC" }

/-- Player Bob, marked disconnected mid-game. -/
def pBdisc : Player :=
  { id := "B", name := "Bob", disconnected := true, disconnect_time := some 0 }

/-- C1: a `vote_selection` room in which Alice is the imposter. -/
def roomVoteSelA : Room :=
  { players := [pA, pB], host_id := "A", phase := "vote_selection"
    imposter_id := some "A", impostor_ids := some ["A"]
    roles := [("A", "imposter"), ("B", "normal")]
    answers := [("A", "ansA"), ("B", "ansB")]
    main_question := some "Q" }

/-- C1: the same room except that Bob is the imposter (it differs from
`roomVoteSelA` only in `imposter_id`, `impostor_ids` and `roles`). -/
def roomVoteSelB : Room :=
  { players := [pA, pB], host_id := "A", phase := "vote_selection"
    imposter_id := some "B", impostor_ids := some ["B"]
    roles := [("A", "normal"), ("B", "imposter")]
    answers := [("A", "ansA"), ("B", "ansB")]
    main_question := some "Q" }

/-- C2: a room sitting in the `question` phase. -/
def roomQuestionC2 : Room :=
  { players := [pA, pB], host_id := "A", phase := "question"
    impostor_ids := some ["A"], imposter_id := some "A" }

/-- C3: a store holding one room that has already advanced to `voting`. -/
def dbVotingC3 : Db :=
  [("r1", rowOfRoom { players := [pA, pB], host_id := "A", phase := "voting" })]

/-- C4: a room snapshot carrying cumulative player scores. -/
def roomScoresC4 : Room :=
  { players := [pA, pB], host_id := "A", phase := "vote_selection"
    player_scores := some [("A", 3), ("B", -1)] }

/-- C5: a zero-imposter round in which Alice cast the only vote (against
Bob).  Alice received no vote; Bob received one. -/
def roomZeroImpC5 : Room :=
  { players := [pA, pB], host_id := "A", phase := "vote_selection"
    impostor_ids := some [], liarVotes := [("B", ["A"])] }

/-- C6 witness: Alice is the lone imposter among three active players and
Bob cast the only accusation, against Alice. -/
def roomOneImpC6 : Room :=
  { players := [pA, pB, pC], host_id := "A", phase := "vote_selection"
    impostor_ids := some ["A"], imposter_id := some "A"
    liarVotes := [("A", ["B"])] }

/-- C7 counterexample: a waiting room with two listed players of which only
the host Alice is active (Bob is disconnected, as left behind by a
new-game reset). -/
def roomOneActiveC7 : Room :=
  { players := [pA, pBdisc], host_id := "A", phase := "waiting" }

/-- C7 witness: a waiting room with two active players. -/
def roomTwoActiveC7 : Room :=
  { players := [pA, pB], host_id := "A", phase := "waiting" }

/-- Default-style settings dict sent by the client on start-game. -/
def settingsNormal : GameSettings :=
  { totalRounds := some 3, playerCount := some 6, discussTime := some 180,
    answerTime := some 60, gameMode := some "normal" }

/-- C9 counterexample: a `question` room with two active players where Bob
has submitted and Alice has not. -/
def roomTwoQuestionC9 : Room :=
  { players := [pA, pB], host_id := "A", phase := "question"
    answers := [("B", "ansB")]
    impostor_ids := some ["A"], imposter_id := some "A" }

/-- C9 witness: a `question` room with three active players where Bob and
Cara have submitted and Alice has not. -/
def roomThreeQuestionC9 : Room :=
  { players := [pA, pB, pC], host_id := "A", phase := "question"
    answers := [("B", "ansB"), ("C", "ansC")]
    impostor_ids := some ["A"], imposter_id := some "A" }

/-- C10 witness: a normal-mode `vote_selection` room where Alice has
already voted for Bob. -/
def roomLiarVoteC10 : Room :=
  { players := [pA, pB, pC], host_id := "A", phase := "vote_selection"
    impostor_ids := some ["B"], imposter_id := some "B"
    liarVotes := [("B", ["A"])] }

/-- `dict.get(k)` on a string-valued dict (`room["roles"]`,
`room["questions"]`). -/
def lookupAssoc (m : List (String × String)) (k : String) : Option String :=
  (m.find? (fun e => e.1 = k)).map (fun e => e.2)

/-! ## Helper lemmas -/

theorem IntDict.keys_add (d : IntDict) (k : String) (v : Int) :
    (d.add k v).keys = d.keys := rfl

theorem IntDict.val_add (d : IntDict) (k : String) (v : Int) (q : String) :
    (d.add k v).val q = if q = k then d.val q + v else d.val q := rfl

/-- Pointwise value of a fold of guarded score additions: provided every
step either leaves the dict alone or adds `δ x` at key `x` (condition
`C x`), and the processed keys are distinct, the final value at `q` is the
initial value plus `δ q` exactly when `q` is processed and satisfies `C`. -/
theorem IntDict.val_foldl_add (K : List String) (step : IntDict → String → IntDict)
    (C : String → Bool) (δ : String → Int)
    (hstep : ∀ s x, s.keys = K → (step s x).keys = K ∧
      ∀ q, (step s x).val q = if q = x ∧ C x = true then s.val q + δ x else s.val q) :
    ∀ (ks : List String), ks.Nodup → ∀ (d : IntDict), d.keys = K → ∀ q,
      (ks.foldl step d).val q =
        if q ∈ ks ∧ C q = true then d.val q + δ q else d.val q := by
  intro ks
  induction ks with
  | nil => intro _ d _ q; simp
  | cons x rest ih =>
    intro hnd d hd q
    obtain ⟨hk, hv⟩ := hstep d x hd
    have hx : x ∉ rest := (List.nodup_cons.mp hnd).1
    rw [List.foldl_cons, ih (List.Nodup.of_cons hnd) (step d x) hk q, hv q]
    by_cases hq : q = x
    · subst hq
      have hqr : q ∉ rest := hx
      by_cases hc : C q = true <;> simp [hqr, hc]
    · simp only [List.mem_cons]
      by_cases hr : q ∈ rest <;> by_cases hc : C q = true <;>
        simp [hq, hr, hc]

theorem activeIds_nodup (room : Room)
    (hnd : (room.players.map Player.id).Nodup) :
    ((getActivePlayers room.players).map (fun p => p.id)).Nodup := by
  have hsub : (getActivePlayers room.players).Sublist room.players :=
    List.filter_sublist room.players
  exact hnd.sublist (hsub.map Player.id)

/-- C5 (amended): in a zero-imposter round, every active player who cast
no liar-vote gains +2, and every active player who cast at least one vote
instead loses one point per non-self target they voted against — the +2 is
keyed on *casting* no vote, not on receiving none as the claim states. -/
theorem zero_imposter_round_scores (room : Room)
    (hz : room.impostor_ids.getD [] = [])
    (hnd : (room.players.map Player.id).Nodup)
    (p : Player) (hp : p ∈ getActivePlayers room.players) :
    (calculate_round_scores room).val p.id =
      if ((room.liarVotes.map (fun e => e.2)).flatten).contains p.id
      then -(wrongVoteCount room.liarVotes p.id : Int)
      else 2 := by
  have hne : room.players ≠ [] := by
    intro h
    rw [getActivePlayers, h] at hp
    simp at hp
  have hmem : p.id ∈ (getActivePlayers room.players).map (fun p => p.id) :=
    List.mem_map_of_mem _ hp
  have hnd' := activeIds_nodup room hnd
  unfold calculate_round_scores
  rw [if_neg hne, hz, if_pos rfl]
  have hfold := IntDict.val_foldl_add (room.players.map (fun p => p.id))
    (zeroImposterStep room)
    (fun _ => true)
    (fun pid =>
      if ((room.liarVotes.map (fun e => e.2)).flatten).contains pid
      then -(wrongVoteCount room.liarVotes pid : Int) else 2)
    (by
      intro s x hs
      unfold zeroImposterStep
      constructor
      · by_cases h : x ∈ (room.liarVotes.map (fun e => e.2)).flatten <;>
          simp [h, IntDict.add, hs]
      · intro q
        by_cases h : x ∈ (room.liarVotes.map (fun e => e.2)).flatten <;>
          by_cases hq : q = x <;>
          simp [h, hq, IntDict.add])
    ((getActivePlayers room.players).map (fun p => p.id)) hnd'
    ⟨room.players.map (fun p => p.id), fun _ => 0⟩ rfl p.id
  rw [hfold]
  simp [hmem]

/-- C5 counterexample: with zero imposters and the single vote
`Alice → Bob`, the code scores Alice (who received no vote but cast one)
at −1 and Bob (who received a vote but cast none) at +2, while the claim
as stated predicts +1 for Alice and 0 for Bob. -/
theorem zero_imposter_scores_key_on_casting :
    (calculate_round_scores roomZeroImpC5).val "A" = -1 ∧
    (calculate_round_scores roomZeroImpC5).val "B" = 2 ∧
    c5ClaimScore roomZeroImpC5 "A" = 1 ∧
    c5ClaimScore roomZeroImpC5 "B" = 0 := by
  refine ⟨?_, ?_, ?_, ?_⟩ <;> decide

/-- C5 witness: the amended zero-imposter rule evaluated for Bob, who cast
no vote and therefore gains +2. -/
theorem zero_imposter_round_scores_witness :
    (calculate_round_scores roomZeroImpC5).val "B" = 2 := by
  have h := zero_imposter_round_scores roomZeroImpC5 (by decide) (by decide)
    pB (by decide)
  exact h.trans (by decide)

theorem pct_le_iff (v t : Nat) (ht : 0 < t) :
    ((v : ℚ) / (t : ℚ) * 100 ≤ 50) ↔ 2 * v ≤ t := by
  rw [div_mul_eq_mul_div, div_le_iff₀ (by exact_mod_cast ht)]
  rw [show ((v : ℚ) * 100) = ((v * 100 : ℕ) : ℚ) by push_cast; ring,
      show ((50 : ℚ) * (t : ℚ)) = ((50 * t : ℕ) : ℚ) by push_cast; ring,
      Nat.cast_le]
  omega

theorem IntDict.keys_foldl (K : List String) (step : IntDict → String → IntDict)
    (hstep : ∀ s x, s.keys = K → (step s x).keys = K) :
    ∀ (ks : List String) (d : IntDict), d.keys = K → (ks.foldl step d).keys = K := by
  intro ks
  induction ks with
  | nil => intro d hd; exact hd
  | cons x rest ih => intro d hd; exact ih _ (hstep d x hd)


theorem imposterBonusStep_keys (room : Room) (s : IntDict) (x : String)
    (hs : s.keys = room.players.map (fun p => p.id)) :
    (imposterBonusStep room s x).keys = room.players.map (fun p => p.id) := by
  simp only [imposterBonusStep]
  split_ifs <;> exact hs

theorem imposterBonusStep_foldl_val (room : Room)
    (hndi : (room.impostor_ids.getD []).Nodup)
    (d : IntDict) (hd : d.keys = room.players.map (fun p => p.id)) (q : String) :
    (((room.impostor_ids.getD []).foldl (imposterBonusStep room) d).val) q =
      if q ∈ room.impostor_ids.getD [] ∧
          (room.players.map (fun p => p.id)).contains q = true then
        d.val q +
          (if validVoteCount room q = 0 then 2
           else if (if 0 < ((getActivePlayers room.players).map (fun p => p.id)).length
               then (validVoteCount room q : ℚ) /
                 ((((getActivePlayers room.players).map (fun p => p.id)).length : ℚ)) * 100
               else 0) ≤ 50 then 1
           else (0 : Int))
      else d.val q := by
  refine IntDict.val_foldl_add (room.players.map (fun p => p.id))
    (imposterBonusStep room)
    (fun iid => (room.players.map (fun p => p.id)).contains iid)
    (fun iid =>
      if validVoteCount room iid = 0 then 2
      else if (if 0 < ((getActivePlayers room.players).map (fun p => p.id)).length
          then (validVoteCount room iid : ℚ) /
            ((((getActivePlayers room.players).map (fun p => p.id)).length : ℚ)) * 100
          else 0) ≤ 50 then 1
      else (0 : Int))
    ?_ (room.impostor_ids.getD []) hndi d hd q
  intro s x hs
  constructor
  · exact imposterBonusStep_keys room s x hs
  · intro q
    simp only [imposterBonusStep, IntDict.hasKey, hs]
    by_cases hc : x ∈ room.players.map (fun p => p.id) <;>
      by_cases hq : q = x <;>
      by_cases h1 : validVoteCount room x = 0 <;>
      by_cases h2 : (if 0 < (getActivePlayers room.players).length
          then (validVoteCount room x : ℚ) /
            (((getActivePlayers room.players).length : ℚ)) * 100
          else 0) ≤ 50 <;>
      simp [hc, hq, h1, h2, IntDict.add]

theorem normalVoterStep_foldl_val (room : Room)
    (hnd' : ((getActivePlayers room.players).map (fun p => p.id)).Nodup)
    (d : IntDict) (hd : d.keys = room.players.map (fun p => p.id)) (q : String) :
    ((((getActivePlayers room.players).map (fun p => p.id)).foldl
        (normalVoterStep room) d).val) q =
      if q ∈ (getActivePlayers room.players).map (fun p => p.id) ∧
          (!(room.impostor_ids.getD []).contains q) = true then
        d.val q +
          (if votedCorrectly room.liarVotes (room.impostor_ids.getD []) q then 1
           else (0 : Int))
      else d.val q := by
  refine IntDict.val_foldl_add (room.players.map (fun p => p.id))
    (normalVoterStep room)
    (fun pid => !(room.impostor_ids.getD []).contains pid)
    (fun pid =>
      if votedCorrectly room.liarVotes (room.impostor_ids.getD []) pid then 1
      else (0 : Int))
    ?_ ((getActivePlayers room.players).map (fun p => p.id)) hnd' d hd q
  intro s x hs
  constructor
  · simp only [normalVoterStep]
    split_ifs <;> exact hs
  · intro q
    simp only [normalVoterStep]
    by_cases hc : x ∈ room.impostor_ids.getD [] <;>
      by_cases hq : q = x <;>
      by_cases hv : votedCorrectly room.liarVotes (room.impostor_ids.getD []) x = true <;>
      simp [hc, hq, hv, IntDict.add]

theorem mayhemVoterStep_foldl_val (room : Room)
    (hnd' : ((getActivePlayers room.players).map (fun p => p.id)).Nodup)
    (d : IntDict) (hd : d.keys = room.players.map (fun p => p.id)) (q : String) :
    ((((getActivePlayers room.players).map (fun p => p.id)).foldl
        (mayhemVoterStep room) d).val) q =
      if q ∈ (getActivePlayers room.players).map (fun p => p.id) ∧
          (!(room.impostor_ids.getD []).contains q) = true then
        d.val q +
          ((correctVoteCountM room.liarVotes (room.impostor_ids.getD []) q : Int)
            - (wrongVoteCountM room.liarVotes (room.impostor_ids.getD []) q : Int))
      else d.val q := by
  refine IntDict.val_foldl_add (room.players.map (fun p => p.id))
    (mayhemVoterStep room)
    (fun pid => !(room.impostor_ids.getD []).contains pid)
    (fun pid =>
      (correctVoteCountM room.liarVotes (room.impostor_ids.getD []) pid : Int)
        - (wrongVoteCountM room.liarVotes (room.impostor_ids.getD []) pid : Int))
    ?_ ((getActivePlayers room.players).map (fun p => p.id)) hnd' d hd q
  intro s x hs
  constructor
  · simp only [mayhemVoterStep]
    split_ifs <;> exact hs
  · intro q
    simp only [mayhemVoterStep]
    by_cases hc : x ∈ room.impostor_ids.getD [] <;>
      by_cases hq : q = x <;>
      simp [hc, hq, IntDict.add]

/-- C6: with at least one assigned imposter, each still-present imposter
gains +2 on zero valid (non-self) votes received, +1 when the valid votes
are at most 50% of the active-player count and 0 otherwise; and in
non-mayhem mode each active non-imposter gains a flat +1 exactly when they
cast at least one correct accusation. -/
theorem imposter_round_scores (room : Room)
    (hi : room.impostor_ids.getD [] ≠ [])
    (hnd : (room.players.map Player.id).Nodup)
    (hndi : (room.impostor_ids.getD []).Nodup)
    (hact : getActivePlayers room.players ≠ []) :
    (∀ iid ∈ room.impostor_ids.getD [], iid ∈ room.players.map Player.id →
      (calculate_round_scores room).val iid =
        (if validVoteCount room iid = 0 then 2
         else if 2 * validVoteCount room iid ≤ (getActivePlayers room.players).length
           then 1
         else 0))
    ∧ (gameModeOf room ≠ "mayhem" →
      ∀ p ∈ getActivePlayers room.players,
        p.id ∉ room.impostor_ids.getD [] →
        (calculate_round_scores room).val p.id =
          if votedCorrectly room.liarVotes (room.impostor_ids.getD []) p.id
          then 1 else 0) := by
  have hne : room.players ≠ [] := by
    intro h
    apply hact
    rw [getActivePlayers, h]
    rfl
  have hnd' := activeIds_nodup room hnd
  have htot : 0 < (getActivePlayers room.players).length := List.length_pos.mpr hact
  have htotM : 0 < ((getActivePlayers room.players).map (fun p => p.id)).length := by
    rw [List.length_map]; exact htot
  have hkeys_sc1 : ((room.impostor_ids.getD []).foldl (imposterBonusStep room)
      (⟨room.players.map (fun p => p.id), fun _ => 0⟩ : IntDict)).keys =
      room.players.map (fun p => p.id) :=
    IntDict.keys_foldl _ (imposterBonusStep room) (imposterBonusStep_keys room) _ _ rfl
  have hiff : ∀ iid,
      ((if 0 < (getActivePlayers room.players).length
          then (validVoteCount room iid : ℚ) /
            (((getActivePlayers room.players).length : ℚ)) * 100
          else 0) ≤ 50) ↔
      2 * validVoteCount room iid ≤ (getActivePlayers room.players).length := by
    intro iid
    rw [if_pos htot]
    exact pct_le_iff _ _ htot
  unfold calculate_round_scores
  rw [if_neg hne, if_neg hi]
  constructor
  · intro iid hiid hiidK
    have hcont : (room.players.map (fun p => p.id)).contains iid = true := by
      simpa using hiidK
    by_cases hm : gameModeOf room = "mayhem"
    · rw [if_pos hm,
        mayhemVoterStep_foldl_val room hnd'
          ((room.impostor_ids.getD []).foldl (imposterBonusStep room)
            (⟨room.players.map (fun p => p.id), fun _ => 0⟩ : IntDict)) hkeys_sc1 iid,
        if_neg (by simp [hiid]),
        imposterBonusStep_foldl_val room hndi
          (⟨room.players.map (fun p => p.id), fun _ => 0⟩ : IntDict) rfl iid,
        if_pos ⟨hiid, hcont⟩]
      simp [hiff iid]
    · rw [if_neg hm,
        normalVoterStep_foldl_val room hnd'
          ((room.impostor_ids.getD []).foldl (imposterBonusStep room)
            (⟨room.players.map (fun p => p.id), fun _ => 0⟩ : IntDict)) hkeys_sc1 iid,
        if_neg (by simp [hiid]),
        imposterBonusStep_foldl_val room hndi
          (⟨room.players.map (fun p => p.id), fun _ => 0⟩ : IntDict) rfl iid,
        if_pos ⟨hiid, hcont⟩]
      simp [hiff iid]
  · intro hm p hp hpim
    have hmem : p.id ∈ (getActivePlayers room.players).map (fun p => p.id) :=
      List.mem_map_of_mem _ hp
    rw [if_neg hm,
      normalVoterStep_foldl_val room hnd'
        ((room.impostor_ids.getD []).foldl (imposterBonusStep room)
          (⟨room.players.map (fun p => p.id), fun _ => 0⟩ : IntDict)) hkeys_sc1 p.id,
      if_pos ⟨hmem, by simp [hpim]⟩,
      imposterBonusStep_foldl_val room hndi
        (⟨room.players.map (fun p => p.id), fun _ => 0⟩ : IntDict) rfl p.id,
      if_neg (by simp [hpim])]
    simp

/-- C6 witness: in `roomOneImpC6` (one imposter Alice, three active
players, one accusation by Bob) the theorem yields +1 for Alice (accused by
exactly one of three players), +1 for Bob (correct accusation) and 0 for
Cara. -/
theorem imposter_round_scores_witness :
    (calculate_round_scores roomOneImpC6).val "A" = 1 ∧
    (calculate_round_scores roomOneImpC6).val "B" = 1 ∧
    (calculate_round_scores roomOneImpC6).val "C" = 0 := by
  obtain ⟨h1, h2⟩ := imposter_round_scores roomOneImpC6 (by decide) (by decide)
    (by decide) (by decide)
  refine ⟨?_, ?_, ?_⟩
  · exact (h1 "A" (by decide) (by decide)).trans (by decide)
  · exact (h2 (by decide) pB (by decide) (by decide)).trans (by decide)
  · exact (h2 (by decide) pC (by decide) (by decide)).trans (by decide)

/-- C8: the imposter count drawn for a round with `n ≥ 2` active players —
`get_mayhem_impostor_count n rand` in mayhem mode, the constant 1
otherwise (the count selection of `handle_start_game` and
`handle_round_transition`) — always satisfies `k ≤ n` (and `0 ≤ k` since it
is a natural number), so `random.sample(active_players, k)` is well
defined. -/
theorem imposter_count_in_range (n : Nat) (hn : 2 ≤ n) (rand : ℚ) (mode : String) :
    (if mode = "mayhem" then get_mayhem_impostor_count n rand else 1) ≤ n ∧
    (mode ≠ "mayhem" →
      (if mode = "mayhem" then get_mayhem_impostor_count n rand else 1) = 1) := by
  constructor
  · by_cases hm : mode = "mayhem"
    · rw [if_pos hm]
      unfold get_mayhem_impostor_count
      split_ifs <;> omega
    · rw [if_neg hm]
      omega
  · intro hm
    rw [if_neg hm]

/-- C8 witness: four active players in mayhem mode with `rand = 50` give 2
imposters, which is at most 4; normal mode always gives exactly 1. -/
theorem imposter_count_in_range_witness :
    (if ("mayhem" : String) = "mayhem" then get_mayhem_impostor_count 4 50 else 1) ≤ 4 ∧
    (if ("normal" : String) = "mayhem" then get_mayhem_impostor_count 4 50 else 1) = 1 :=
  ⟨(imposter_count_in_range 4 (by decide) 50 "mayhem").1,
   (imposter_count_in_range 4 (by decide) 50 "normal").2 (by decide)⟩

/-- C3: a phase-timer callback armed for expected phase `phaseName` leaves
the store exactly unchanged whenever, at firing time, the room no longer
exists or its phase is no longer `phaseName` (the
`if not room or room['phase'] != phase_name: return` guard of
`schedule_phase_transition`). -/
theorem stale_timer_callback_noop (db : Db) (roomId phaseName nextPhase : String)
    (now : Int) (qp : String × String × Nat) (imps : List Player) (rand : ℚ)
    (h : ((getRoomDb db roomId).all (fun r => r.phase != phaseName)) = true) :
    phase_timer_callback db roomId phaseName nextPhase now qp imps rand = db := by
  unfold phase_timer_callback
  cases hg : getRoomDb db roomId with
  | none => rfl
  | some r =>
    rw [hg] at h
    simp only [Option.all_some] at h
    simp only [h, if_true]

/-- C3 witness: firing a stale `question → voting` timer on a room that has
already advanced to `voting` leaves the store untouched. -/
theorem stale_timer_callback_noop_witness :
    phase_timer_callback dbVotingC3 "r1" "question" "voting" 0 ("Q", "IQ", 0) [] 0
      = dbVotingC3 :=
  stale_timer_callback_noop dbVotingC3 "r1" "question" "voting" 0 ("Q", "IQ", 0) [] 0
    (by decide)

/-- C1 (code bug): two `vote_selection` rooms that differ *only* in their
imposter assignment (`imposter_id`, `impostor_ids`, `roles`) produce
different projections — `get_room_state` copies `impostorIds` and
`imposterId` into the `vote_selection` state, so imposter identity is
revealed to all clients before the `results` phase. -/
theorem projection_leaks_imposter_in_vote_selection :
    roomVoteSelA.phase = "vote_selection" ∧
    ({ roomVoteSelA with
        imposter_id := roomVoteSelB.imposter_id
        impostor_ids := roomVoteSelB.impostor_ids
        roles := roomVoteSelB.roles } = roomVoteSelB) ∧
    get_room_state (some roomVoteSelA) "r" ≠ get_room_state (some roomVoteSelB) "r" := by
  refine ⟨rfl, rfl, ?_⟩
  decide

/-- C2 (code bug): a `voting_timer_expired` event on a room still in the
`question` phase forces the phase straight to `vote_selection`, skipping
`voting` — `handle_voting_timer_expired` has no guard on the current
phase. -/
theorem voting_timer_handler_skips_voting :
    roomQuestionC2.phase = "question" ∧
    (handle_voting_timer_expired (some roomQuestionC2) 5).map Room.phase
      = some "vote_selection" :=
  ⟨rfl, rfl⟩

/-- C4 (code bug): writing a room snapshot with `update_room` and reading
it back with `get_room` silently drops the cumulative score map — the
`rooms` table has no `player_scores` column — while e.g. phase and player
list do survive the round trip. -/
theorem round_trip_drops_player_scores :
    roomScoresC4.player_scores = some [("A", 3), ("B", -1)] ∧
    (roomOfRow (rowOfRoom roomScoresC4)).player_scores = none ∧
    (roomOfRow (rowOfRoom roomScoresC4)).phase = roomScoresC4.phase ∧
    (roomOfRow (rowOfRoom roomScoresC4)).players = roomScoresC4.players :=
  ⟨rfl, rfl, rfl, rfl⟩

theorem lookupAssoc_map_overwrite (m : List (String × String)) (k v q : String)
    (hq : q ≠ k) :
    lookupAssoc (m.map (fun e => if e.1 = k then (e.1, v) else e)) q =
      lookupAssoc m q := by
  induction m with
  | nil => rfl
  | cons e rest ih =>
    simp only [lookupAssoc, List.map_cons] at ih ⊢
    by_cases he : e.1 = k
    · rw [if_pos he]
      have h1 : (decide ((e.1, v).1 = q)) = false := by
        simp only [decide_eq_false_iff_not]
        rw [he]
        exact fun h => hq h.symm
      have h2 : (decide (e.1 = q)) = false := by
        simp only [decide_eq_false_iff_not]
        rw [he]
        exact fun h => hq h.symm
      rw [List.find?_cons_of_neg _ (by simpa using h1),
        List.find?_cons_of_neg _ (by simpa using h2)]
      exact ih
    · rw [if_neg he]
      by_cases heq : e.1 = q
      · rw [List.find?_cons_of_pos _ (by simpa using heq),
          List.find?_cons_of_pos _ (by simpa using heq)]
      · rw [List.find?_cons_of_neg _ (by simpa using heq),
          List.find?_cons_of_neg _ (by simpa using heq)]
        exact ih

theorem lookupAssoc_map_overwrite_self (m : List (String × String)) (k v : String)
    (h : m.any (fun e => e.1 = k) = true) :
    lookupAssoc (m.map (fun e => if e.1 = k then (e.1, v) else e)) k = some v := by
  induction m with
  | nil => simp at h
  | cons e rest ih =>
    simp only [lookupAssoc, List.map_cons] at ih ⊢
    by_cases he : e.1 = k
    · rw [if_pos he, List.find?_cons_of_pos _ (by simpa using he)]
      rfl
    · rw [if_neg he, List.find?_cons_of_neg _ (by simpa using he)]
      have h' : rest.any (fun e => e.1 = k) = true := by
        simpa [List.any_cons, he] using h
      exact ih h'

theorem lookupAssoc_assocSet (m : List (String × String)) (k v q : String) :
    lookupAssoc (assocSet m k v) q = if q = k then some v else lookupAssoc m q := by
  by_cases h : m.any (fun e => e.1 = k) = true
  · rw [assocSet, if_pos h]
    by_cases hq : q = k
    · subst hq
      rw [if_pos rfl]
      exact lookupAssoc_map_overwrite_self m q v h
    · rw [if_neg hq]
      exact lookupAssoc_map_overwrite m k v q hq
  · rw [assocSet, if_neg h]
    by_cases hq : q = k
    · subst hq
      rw [if_pos rfl]
      have hnone : m.find? (fun e => e.1 = q) = none := by
        rw [List.find?_eq_none]
        intro e he
        simp only [List.any_eq_true, decide_eq_true_eq] at h
        simp only [decide_eq_true_eq, decide_eq_false_iff_not]
        exact fun hk => h ⟨e, he, hk⟩
      simp [lookupAssoc, List.find?_append, hnone, List.find?_cons]
    · rw [if_neg hq]
      have hkq : ¬(k = q) := fun hx => hq hx.symm
      simp only [lookupAssoc, List.find?_append]
      cases hf : m.find? (fun e => decide (e.1 = q)) with
      | none => simp [List.find?_cons, hkq]
      | some e => simp

theorem lookupAssoc_foldl_ne (ps : List Player) (f : Player → String)
    (m : List (String × String)) (q : String) (h : ∀ p ∈ ps, p.id ≠ q) :
    lookupAssoc (ps.foldl (fun acc p => assocSet acc p.id (f p)) m) q =
      lookupAssoc m q := by
  induction ps generalizing m with
  | nil => rfl
  | cons x rest ih =>
    rw [List.foldl_cons,
      ih _ (fun p hp => h p (List.mem_cons_of_mem _ hp)),
      lookupAssoc_assocSet,
      if_neg (fun hx => (h x (List.mem_cons_self x rest)) hx.symm)]

theorem lookupAssoc_foldl_mem (ps : List Player) (f : Player → String)
    (m : List (String × String)) (p : Player) (hp : p ∈ ps)
    (hnd : (ps.map Player.id).Nodup) :
    lookupAssoc (ps.foldl (fun acc p => assocSet acc p.id (f p)) m) p.id =
      some (f p) := by
  induction ps generalizing m with
  | nil => cases hp
  | cons x rest ih =>
    rw [List.foldl_cons]
    rcases List.mem_cons.mp hp with h | h
    · subst h
      have hnot : ∀ r ∈ rest, r.id ≠ p.id := by
        intro r hr heq
        exact (List.nodup_cons.mp hnd).1 (List.mem_map.mpr ⟨r, hr, heq⟩)
      rw [lookupAssoc_foldl_ne rest f _ p.id hnot, lookupAssoc_assocSet, if_pos rfl]
    · exact ih _ h (List.Nodup.of_cons hnd)

/-- C7 (amended): a start-game request succeeds only when the requester is
the host and the room lists at least 2 players (active or not — unlike the
claim, the guard does not count active players); on success the phase
becomes `question`, exactly one player is marked imposter in normal mode,
every player gets a non-null private question (the imposter prompt for the
imposter, the main prompt otherwise), the drawn question index joins the
used set, answers and votes are cleared and the question timestamps are
stamped from the configured answer duration. -/
theorem start_game_requires_host_and_two_listed (room : Room) (playerId : String)
    (settings : Option GameSettings) (qp : String × String × Nat)
    (i : Player) (rand : ℚ) (now : Int)
    (hnd : (room.players.map Player.id).Nodup)
    (hip : i ∈ room.players) :
    ((handle_start_game (some room) playerId settings qp [i] rand now).isStarted = true →
      room.host_id = playerId ∧ 2 ≤ room.players.length) ∧
    (room.host_id = playerId → 2 ≤ room.players.length →
      ∀ r, (handle_start_game (some room) playerId settings qp [i] rand now).startedRoom
          = some r →
        r.phase = "question" ∧
        r.players = room.players ∧
        r.players.countP (fun p => lookupAssoc r.roles p.id = some "imposter") = 1 ∧
        (∀ p ∈ r.players, lookupAssoc r.questions p.id =
          some (if p.id = i.id then qp.2.1 else qp.1)) ∧
        r.used_question_indexes = room.used_question_indexes ++ [qp.2.2] ∧
        r.answers = [] ∧ r.votes = [] ∧
        r.questionPhaseStartTimestamp = some now ∧
        r.questionPhaseEndTimestamp = some (now + (answerTimeOf r : Int) * 1000) ∧
        r.impostor_ids = some [i.id] ∧ r.imposter_id = some i.id) := by
  constructor
  · intro hs
    by_cases h1 : room.host_id = playerId
    · by_cases h2 : room.players.length < 2
      · exfalso
        simp only [handle_start_game] at hs
        rw [if_neg (by simp [h1])] at hs
        rw [if_pos h2] at hs
        simp [StartGameResult.isStarted] at hs
      · exact ⟨h1, by omega⟩
    · exfalso
      simp only [handle_start_game] at hs
      rw [if_pos (by simp [h1])] at hs
      simp [StartGameResult.isStarted] at hs
  · intro hh hlen r hr
    simp only [handle_start_game] at hr
    rw [if_neg (by simp [hh])] at hr
    rw [if_neg (by omega)] at hr
    simp only [StartGameResult.startedRoom, Option.some.injEq] at hr
    subst hr
    refine ⟨rfl, rfl, ?_, ?_, rfl, rfl, rfl, rfl, rfl, rfl, rfl⟩
    · have hroles : ∀ p ∈ room.players,
          lookupAssoc (room.players.foldl (fun m (p : Player) =>
            assocSet m p.id
              (if (([i] : List Player).map (fun p => p.id)).contains p.id
               then "imposter" else "normal")) room.roles) p.id =
          some (if (([i] : List Player).map (fun p => p.id)).contains p.id
                then "imposter" else "normal") :=
        fun p hp => lookupAssoc_foldl_mem room.players _ room.roles p hp hnd
      calc room.players.countP (fun p =>
              lookupAssoc (room.players.foldl (fun m (p : Player) =>
                assocSet m p.id
                  (if (([i] : List Player).map (fun p => p.id)).contains p.id
                   then "imposter" else "normal")) room.roles) p.id = some "imposter")
          = room.players.countP (fun p => p.id == i.id) := by
            refine List.countP_congr ?_
            intro p hp
            rw [hroles p hp]
            by_cases hpi : p.id = i.id <;> simp [hpi]
        _ = (room.players.map Player.id).countP (fun x => x == i.id) := by
            rw [List.countP_map]
            rfl
        _ = (room.players.map Player.id).count i.id := rfl
        _ = 1 := List.count_eq_one_of_mem hnd (List.mem_map_of_mem _ hip)
    · intro p hp
      have hq : lookupAssoc (room.players.foldl (fun m (p : Player) =>
            assocSet m p.id
              (if (([i] : List Player).map (fun p => p.id)).contains p.id
               then qp.2.1 else qp.1)) room.questions) p.id =
          some (if (([i] : List Player).map (fun p => p.id)).contains p.id
                then qp.2.1 else qp.1) :=
        lookupAssoc_foldl_mem room.players _ room.questions p hp hnd
      rw [hq]
      by_cases hpi : p.id = i.id <;> simp [hpi]

/-- C7 counterexample: in a waiting room whose player list holds the host
Alice and a disconnected Bob, a start-game request by Alice succeeds even
though only 1 player is active — the guard in `handle_start_game` counts
`len(room["players"])`, not active players, so the claimed
"at least 2 active players" precondition is not what the code enforces. -/
theorem start_game_ignores_active_count :
    (handle_start_game (some roomOneActiveC7) "A" (some settingsNormal)
      ("Q", "IQ", 0) [pA] 0 1000).isStarted = true ∧
    (getActivePlayers roomOneActiveC7.players).length = 1 := by
  constructor <;> decide

/-- C7 witness: a start-game request by host Alice on a waiting room with
two listed players succeeds, lands in phase `question`, and marks exactly
one player as imposter. -/
theorem start_game_requires_host_witness :
    ((handle_start_game (some roomTwoActiveC7) "A" (some settingsNormal)
      ("Q", "IQ", 0) [pA] 0 1000).startedRoom.map Room.phase = some "question") ∧
    ((handle_start_game (some roomTwoActiveC7) "A" (some settingsNormal)
      ("Q", "IQ", 0) [pA] 0 1000).startedRoom.map
        (fun r => r.players.countP
          (fun p => lookupAssoc r.roles p.id = some "imposter")) = some 1) := by
  have h := (start_game_requires_host_and_two_listed roomTwoActiveC7 "A"
    (some settingsNormal) ("Q", "IQ", 0) pA 0 1000 (by decide) (by decide)).2
    rfl (by decide)
  cases hsr : (handle_start_game (some roomTwoActiveC7) "A" (some settingsNormal)
      ("Q", "IQ", 0) [pA] 0 1000).startedRoom with
  | none => exact absurd hsr (by decide)
  | some r =>
    obtain ⟨hp, _, hc, _⟩ := h r hsr
    simp [hp, hc]

theorem voterOccurrences_cons (e : String × List String)
    (rest : List (String × List String)) (v : String) :
    voterOccurrences (e :: rest) v = e.2.count v + voterOccurrences rest v := by
  simp [voterOccurrences]

theorem voterOccurrences_le_head (e : String × List String)
    (rest : List (String × List String)) (v : String) :
    e.2.count v ≤ voterOccurrences (e :: rest) v := by
  rw [voterOccurrences_cons]
  omega

theorem voterOccurrences_map_erase_self (lv : List (String × List String))
    (w : String) (h : voterOccurrences lv w ≤ 1) :
    voterOccurrences (lv.map (fun e => (e.1, e.2.erase w))) w = 0 := by
  induction lv with
  | nil => rfl
  | cons e rest ih =>
    rw [voterOccurrences_cons] at h
    rw [List.map_cons, voterOccurrences_cons]
    have h1 : (e.2.erase w).count w = 0 := by
      rw [List.count_erase_self]
      omega
    rw [h1, ih (by omega)]

theorem voterOccurrences_map_erase_ne (lv : List (String × List String))
    (w v : String) (hne : v ≠ w) :
    voterOccurrences (lv.map (fun e => (e.1, e.2.erase w))) v =
      voterOccurrences lv v := by
  induction lv with
  | nil => rfl
  | cons e rest ih =>
    rw [List.map_cons, voterOccurrences_cons, voterOccurrences_cons, ih,
      List.count_erase_of_ne hne]

theorem voterOccurrences_append (lv₁ lv₂ : List (String × List String)) (v : String) :
    voterOccurrences (lv₁ ++ lv₂) v =
      voterOccurrences lv₁ v + voterOccurrences lv₂ v := by
  simp [voterOccurrences]

theorem voterOccurrences_appendVote (lv : List (String × List String))
    (t w v : String) (hkey : lv.any (fun e => e.1 = t) = true) :
    voterOccurrences (appendVote lv t w) v =
      voterOccurrences lv v + (if v = w then 1 else 0) := by
  induction lv with
  | nil => simp at hkey
  | cons e rest ih =>
    by_cases he : e.1 = t
    · simp only [appendVote]
      rw [if_pos he, voterOccurrences_cons, voterOccurrences_cons,
        List.count_append]
      have : List.count v [w] = if v = w then 1 else 0 := by
        by_cases hv : v = w <;> simp [hv, List.count_singleton]
      omega
    · have hkey' : rest.any (fun e => e.1 = t) = true := by
        simpa [List.any_cons, he] using hkey
      simp only [appendVote]
      rw [if_neg he, voterOccurrences_cons, voterOccurrences_cons, ih hkey']
      omega

theorem voterOccurrences_after_vote (lv : List (String × List String))
    (t w v : String) :
    voterOccurrences (appendVote
      (if lv.any (fun e => e.1 = t) then lv else lv ++ [(t, [])]) t w) v =
    voterOccurrences lv v + (if v = w then 1 else 0) := by
  by_cases hk : lv.any (fun e => e.1 = t) = true
  · rw [if_pos hk, voterOccurrences_appendVote lv t w v hk]
  · rw [if_neg hk,
      voterOccurrences_appendVote _ t w v (by simp [List.any_append]),
      voterOccurrences_append]
    simp [voterOccurrences]

/-- C10: `handle_liar_vote` in non-mayhem mode first strips the voter from
every voter list, so each voter occurs at most once across the tally: the
at-most-one-vote invariant is preserved, and after a successful vote during
`vote_selection` the voter occurs exactly once (a second vote replaces the
first).  In mayhem mode nothing is removed: the voter's occurrence count
grows by exactly one, so duplicates accumulate. -/
theorem liar_vote_single_vote_invariant (room : Room) (voterId targetId : String)
    (hinv : ∀ v, voterOccurrences room.liarVotes v ≤ 1) :
    (gameModeOf room ≠ "mayhem" →
      ∀ v, voterOccurrences (handle_liar_vote room voterId targetId).liarVotes v ≤ 1) ∧
    (gameModeOf room ≠ "mayhem" → room.phase = "vote_selection" →
      voterOccurrences (handle_liar_vote room voterId targetId).liarVotes voterId = 1) ∧
    (gameModeOf room = "mayhem" → room.phase = "vote_selection" →
      voterOccurrences (handle_liar_vote room voterId targetId).liarVotes voterId
        = voterOccurrences room.liarVotes voterId + 1) := by
  by_cases hph : room.phase = "vote_selection"
  · have hph' : ¬((room.phase != "vote_selection") = true) := by simp [hph]
    refine ⟨?_, ?_, ?_⟩
    · intro hm v
      have hm' : (gameModeOf room != "mayhem") = true := by simp [hm]
      simp only [handle_liar_vote]
      rw [if_neg hph', if_pos hm']
      simp only [voterOccurrences_after_vote]
      by_cases hv : v = voterId
      · subst hv
        rw [voterOccurrences_map_erase_self room.liarVotes v (hinv v)]
        simp
      · rw [voterOccurrences_map_erase_ne room.liarVotes voterId v hv, if_neg hv]
        have := hinv v
        omega
    · intro hm _
      have hm' : (gameModeOf room != "mayhem") = true := by simp [hm]
      simp only [handle_liar_vote]
      rw [if_neg hph', if_pos hm']
      simp only [voterOccurrences_after_vote]
      rw [voterOccurrences_map_erase_self room.liarVotes voterId (hinv voterId)]
      simp
    · intro hm _
      have hm' : ¬((gameModeOf room != "mayhem") = true) := by simp [hm]
      simp only [handle_liar_vote]
      rw [if_neg hph', if_neg hm']
      simp only [voterOccurrences_after_vote]
      simp
  · have hph' : (room.phase != "vote_selection") = true := by simpa using hph
    simp only [handle_liar_vote]
    rw [if_pos hph']
    exact ⟨fun _ v => hinv v, fun _ h => absurd h hph, fun _ h => absurd h hph⟩

/-- C10 witness: in a normal-mode `vote_selection` room where Alice already
voted for Bob, re-voting for Cara leaves Alice with exactly one recorded
vote. -/
theorem liar_vote_single_vote_invariant_witness :
    voterOccurrences (handle_liar_vote roomLiarVoteC10 "A" "C").liarVotes "A" = 1 := by
  have h := (liar_vote_single_vote_invariant roomLiarVoteC10 "A" "C" ?_).2.1
    (by decide) (by decide)
  · exact h
  · intro v
    show voterOccurrences [("B", ["A"])] v ≤ 1
    simp only [voterOccurrences, List.map_cons, List.map_nil, List.sum_cons,
      List.sum_nil]
    have h1 : List.count v ["A"] ≤ 1 := by
      simpa using List.count_le_length v ["A"]
    omega

theorem marked_active_length (ps : List Player) (plid : String) (upd : Player)
    (hupd : upd.disconnected = true)
    (hnd : (ps.map Player.id).Nodup) (hmem : plid ∈ ps.map Player.id)
    (hothers : ∀ p ∈ ps, p.id ≠ plid → p.disconnected = false) :
    ((ps.map (fun p => if p.id = plid then upd else p)).filter
      (fun p => !p.disconnected)).length = ps.length - 1 := by
  rw [← List.countP_eq_length_filter, List.countP_map]
  have h1 : ps.countP ((fun p => !p.disconnected) ∘
      (fun p => if p.id = plid then upd else p)) =
      ps.countP (fun p => decide (p.id ≠ plid)) := by
    refine List.countP_congr ?_
    intro p hp
    simp only [Function.comp_apply]
    by_cases hpid : p.id = plid
    · simp [hpid, hupd]
    · simp [hpid, hothers p hp hpid]
  rw [h1]
  have h2 : ps.countP (fun p => decide (p.id = plid)) = 1 := by
    have : (ps.map Player.id).count plid = 1 :=
      List.count_eq_one_of_mem hnd hmem
    rw [← this, List.count, List.countP_map]
    refine List.countP_congr ?_
    intro p _
    by_cases h : p.id = plid <;> simp [Function.comp_apply, h]
  have h3 : ∀ l : List Player, l.countP (fun p => decide (p.id ≠ plid)) +
      l.countP (fun p => decide (p.id = plid)) = l.length := by
    intro l
    induction l with
    | nil => rfl
    | cons a t ih =>
      rw [List.countP_cons, List.countP_cons, List.length_cons]
      by_cases h : a.id = plid
      · have c1 : ¬(decide (a.id ≠ plid) = true) := by simp [h]
        have c2 : (decide (a.id = plid) = true) := by simp [h]
        rw [if_neg c1, if_pos c2]
        omega
      · have c1 : (decide (a.id ≠ plid) = true) := by simp [h]
        have c2 : ¬(decide (a.id = plid) = true) := by simp [h]
        rw [if_pos c1, if_neg c2]
        omega
  have h5 := h3 ps
  omega

theorem purge_filter_noop (ps : List Player) (plid : String) (upd : Player)
    (now : Int) (hupdt : upd.disconnect_time = some now)
    (hothers : ∀ p ∈ ps, p.id ≠ plid → p.disconnected = false) :
    ((ps.map (fun p => if p.id = plid then upd else p)).filter
      (fun p => !(p.disconnected && 30 < now - p.disconnect_time.getD 0))) =
    ps.map (fun p => if p.id = plid then upd else p) := by
  rw [List.filter_eq_self]
  intro x hx
  obtain ⟨q, hq, rfl⟩ := List.mem_map.mp hx
  by_cases hqe : q.id = plid
  · simp [hqe, hupdt]
  · simp [hqe, hothers q hq hqe]

theorem filtered_answers_length (ans : List (String × String)) (ps : List Player)
    (plid : String)
    (hnd : (ps.map Player.id).Nodup)
    (handnd : (ans.map (fun e => e.1)).Nodup)
    (hmem : plid ∈ ps.map Player.id)
    (hall : ∀ p ∈ ps, p.id ≠ plid → ans.any (fun e => e.1 = p.id) = true)
    (honly : ∀ e ∈ ans, ∃ p ∈ ps, e.1 = p.id) :
    (ans.filter (fun e => e.1 != plid)).length = ps.length - 1 := by
  have hK'nd : ((ans.filter (fun e => e.1 != plid)).map (fun e => e.1)).Nodup :=
    handnd.sublist ((List.filter_sublist ans).map _)
  have hfin : ((ans.filter (fun e => e.1 != plid)).map (fun e => e.1)).toFinset =
      ((ps.map Player.id).toFinset).erase plid := by
    ext x
    simp only [List.mem_toFinset, Finset.mem_erase, List.mem_map, List.mem_filter]
    constructor
    · rintro ⟨e, ⟨he, hne⟩, rfl⟩
      refine ⟨by simpa using hne, ?_⟩
      obtain ⟨p, hp, hep⟩ := honly e he
      exact ⟨p, hp, hep.symm⟩
    · rintro ⟨hxne, p, hp, rfl⟩
      obtain ⟨e, he, hee⟩ := List.any_eq_true.mp (hall p hp hxne)
      have hee' : e.1 = p.id := by simpa using hee
      exact ⟨e, ⟨he, by simp [hee', hxne]⟩, hee'⟩
  have hlen1 : (ans.filter (fun e => e.1 != plid)).length =
      ((ans.filter (fun e => e.1 != plid)).map (fun e => e.1)).length :=
    (List.length_map _ _).symm
  rw [hlen1, ← List.toFinset_card_of_nodup hK'nd, hfin,
    Finset.card_erase_of_mem (by simpa using hmem),
    List.toFinset_card_of_nodup hnd, List.length_map]


/-- C9 (amended): when a player disconnects during `question`, their answer
is removed, and if at least TWO active players remain (one remaining active
player gets the room deleted instead, contrary to the claim) and all
remaining active players have submitted (the stored answers being exactly
theirs), the phase advances to `voting` immediately with the ready set
cleared and the voting start timestamp stamped. -/
theorem disconnect_completes_question_phase (room : Room) (sid : String) (now : Int)
    (pl : Player)
    (hfind : room.players.find? (fun p => p.socket_id = some sid) = some pl)
    (hph : room.phase = "question")
    (hnd : (room.players.map Player.id).Nodup)
    (hothers : ∀ p ∈ room.players, p.id ≠ pl.id → p.disconnected = false)
    (hcnt : 3 ≤ room.players.length)
    (handnd : (room.answers.map (fun e => e.1)).Nodup)
    (hall : ∀ p ∈ room.players, p.id ≠ pl.id →
      room.answers.any (fun e => e.1 = p.id) = true)
    (honly : ∀ e ∈ room.answers, ∃ p ∈ room.players, e.1 = p.id) :
    ∃ r, handle_disconnect_room room sid now = .roomUpdated r ∧
      r.phase = "voting" ∧ r.ready_to_vote = [] ∧
      r.votingPhaseStartTimestamp = some (now * 1000) := by
  have hplmem : pl ∈ room.players := List.mem_of_find?_eq_some hfind
  have hplid : pl.id ∈ room.players.map Player.id := List.mem_map_of_mem _ hplmem
  have hwait : ¬(room.phase = "waiting") := by simp [hph]
  simp only [handle_disconnect_room, hfind]
  rw [if_neg hwait, if_pos hph]
  rw [purge_filter_noop room.players pl.id (markDisconnected room pl now) now rfl
    hothers]
  have hlen : (getActivePlayers (room.players.map (fun p =>
      if p.id = pl.id then markDisconnected room pl now else p))).length =
      room.players.length - 1 :=
    marked_active_length room.players pl.id _ rfl hnd hplid hothers
  have h1 : ¬((getActivePlayers (room.players.map (fun p =>
      if p.id = pl.id then markDisconnected room pl now else p))).length = 1) := by
    rw [hlen]
    omega
  have h2 : ¬(getActivePlayers (room.players.map (fun p =>
      if p.id = pl.id then markDisconnected room pl now else p)) = []) := by
    intro h
    rw [h] at hlen
    simp at hlen
    omega
  rw [if_neg h1, if_neg h2]
  obtain ⟨a, rest, hact⟩ : ∃ a rest, getActivePlayers (room.players.map (fun p =>
      if p.id = pl.id then markDisconnected room pl now else p)) = a :: rest := by
    cases h : getActivePlayers (room.players.map (fun p =>
        if p.id = pl.id then markDisconnected room pl now else p)) with
    | nil => exact absurd h h2
    | cons a t => exact ⟨a, t, rfl⟩
  simp only [hact]
  have hans : (room.answers.filter (fun (e : String × String) => e.1 != pl.id)).length
      = room.players.length - 1 :=
    filtered_answers_length room.answers room.players pl.id hnd handnd hplid hall honly
  have hlen2 : (a :: rest).length = room.players.length - 1 := by
    rw [← hact]
    exact hlen
  by_cases hhost : pl.id = room.host_id
  · rw [if_pos hhost]
    simp only [check_phase_transition_after_disconnect]
    rw [if_pos hph]
    rw [if_pos (⟨by rw [hans, hlen2], by simp⟩ :
      (room.answers.filter (fun (e : String × String) => e.1 != pl.id)).length
        = (a :: rest).length ∧ 0 < (a :: rest).length)]
    exact ⟨_, rfl, rfl, rfl, rfl⟩
  · rw [if_neg hhost]
    simp only [check_phase_transition_after_disconnect]
    rw [if_pos hph]
    rw [if_pos (⟨by rw [hans, hlen2], by simp⟩ :
      (room.answers.filter (fun (e : String × String) => e.1 != pl.id)).length
        = (a :: rest).length ∧ 0 < (a :: rest).length)]
    exact ⟨_, rfl, rfl, rfl, rfl⟩

/-- C9 counterexample: with two active players of which Bob has submitted,
Alice's disconnect leaves one active player who has submitted — the claim
says the phase must advance to `voting`, but `handle_disconnect` deletes
the room outright whenever exactly one active player remains. -/
theorem disconnect_deletes_room_with_one_active :
    roomTwoQuestionC9.phase = "question" ∧
    handle_disconnect_room roomTwoQuestionC9 "sA" 100 = .roomDeleted :=
  ⟨rfl, by decide⟩

/-- C9 witness: with three active players of which the two remaining ones
have submitted, Alice's disconnect immediately advances the phase to
`voting` with a cleared ready set and a stamped voting start timestamp. -/
theorem disconnect_completes_question_phase_witness :
    ((handle_disconnect_room roomThreeQuestionC9 "sA" 100).updatedRoom.map Room.phase
      = some "voting") ∧
    ((handle_disconnect_room roomThreeQuestionC9 "sA" 100).updatedRoom.map
      Room.ready_to_vote = some []) ∧
    ((handle_disconnect_room roomThreeQuestionC9 "sA" 100).updatedRoom.map
      Room.votingPhaseStartTimestamp = some (some (100 * 1000))) := by
  obtain ⟨r, hr, h1, h2, h3⟩ := disconnect_completes_question_phase
    roomThreeQuestionC9 "sA" 100 pA (by decide) rfl (by decide) (by decide)
    (by decide) (by decide) (by decide) (by decide)
  rw [hr]
  simp [DisconnectOutcome.updatedRoom, h1, h2, h3]
